import Mathlib

/-!
Shallow embedding of the SBOS capability and policy enforcement engine
(source: extended_implementation/sbos_server_shadow.py): capability
resolution from manifests, the fixed-window token-bucket rate limiter,
enforced and shadow validator chains, administrative shadow promotion,
the resource proxy, and the write pipeline, together with theorems about
them.

Conventions of the embedding: Python dicts become association lists,
SQL tables become lists of rows, floats become rationals, the wall-clock
minute is passed in as a parameter, and the external semantic-graph
oracle, the stored user queries and the validator registry are
abstracted as function-valued environment fields.  Python falsiness
(the expression MAX or minus-one) and Python int() truncation are
modelled explicitly.
-/

namespace SBOS

/-- Python-style dict lookup on an association list. -/
def lookupA {α : Type} (l : List (String × α)) (k : String) : Option α :=
  (l.find? (fun p => p.1 == k)).map (fun p => p.2)

/-- Python-style dict assignment STATE[k] = v: replace in place when the
key is present, append otherwise. -/
def dictSet (l : List (String × ℚ)) (k : String) (v : ℚ) : List (String × ℚ) :=
  if (lookupA l k).isSome then l.map (fun p => if p.1 == k then (k, v) else p)
  else l ++ [(k, v)]

/-- Replace the value bound to a key in an association list. -/
def updateA {α : Type} (l : List (String × α)) (k : String) (v : α) : List (String × α) :=
  l.map (fun p => if p.1 == k then (k, v) else p)

/-- Does the needle match at the head of the haystack? -/
def leadMatch : List Char → List Char → Bool
  | [], _ => true
  | _ :: _, [] => false
  | n :: ns, h :: hs => n == h && leadMatch ns hs

/-- Does the needle occur anywhere in the haystack? -/
def hasSub : List Char → List Char → Bool
  | needle, [] => needle.isEmpty
  | needle, c :: rest => leadMatch needle (c :: rest) || hasSub needle rest

/-- Python substring test: needle in hay. -/
def strContains (hay needle : String) : Bool :=
  hasSub needle.data hay.data

/-- Python int() on a rational: truncation toward zero. -/
def pyInt (q : ℚ) : ℤ :=
  if 0 ≤ q then ⌊q⌋ else ⌈q⌉

/-! ## Permission manager (Manifest, user_caps, compute_caps) -/

/-- The Manifest dataclass of the source. -/
structure Manifest where
  app_id : String
  profile : String
  args : List (String × String)
  delegation : String
  write_rate_limit_per_min : Nat
  permissions : List (String × Bool)
  user : String

/-- External collaborators of the capability resolver: the semantic-graph
oracle (query_iris), the profile template renderer (render_profile, whose
typed-argument validation is part of the oracle and assumed to succeed),
and the stored per-user queries (users_query user key, where key is
"sparql_read" or "sparql_write"; none models a missing key). -/
structure CapEnv where
  query_iris : String → List String
  render_profile : String → List (String × String) → String
  users_query : String → String → Option String

/-- user_caps from the source: resolve the user's stored query for an
operation; a user with no stored query yields the empty list. -/
def user_caps (env : CapEnv) (user op : String) : List String :=
  match env.users_query user ("sparql_" ++ op) with
  | none => []
  | some q => env.query_iris q

/-- A computed capability set: the read and write point-identifier lists. -/
structure Caps where
  read : List String
  write : List String
deriving DecidableEq

/-- compute_caps from the source.  Note that the code compares the
delegation mode against the literal string "augmentation"; every other
delegation value (including "delegated") takes the intersection path. -/
def compute_caps (env : CapEnv) (man : Manifest) : Caps :=
  let app_read := env.query_iris (env.render_profile man.profile man.args)
  let app_write := if (lookupA man.permissions "write").getD false then app_read else []
  if man.delegation = "augmentation" then
    ⟨app_read, app_write⟩
  else
    let uread := user_caps env man.user "read"
    let uwrite := user_caps env man.user "write"
    ⟨app_read.filter (fun i => decide (i ∈ uread)),
     app_write.filter (fun i => decide (i ∈ uwrite))⟩

/-! ## The energy-budget validator -/

/-- Constraint lookup c.get(key, default) over the constraints table. -/
def cget (c : List (String × ℚ)) (k : String) (d : ℚ) : ℚ :=
  (lookupA c k).getD d

/-- v_energy_budget from the source.  The configured minimum cooling
setpoint only gates whether the check applies; the wattage estimate is
computed from the hard constant 20.0 and truncated with int(). -/
def v_energy_budget (c : List (String × ℚ)) (cls label : String) (value : ℚ)
    (prev : Option ℚ) : Bool × String :=
  let watts := cget c "energy_budget_watts" 5000
  let per_deg := cget c "energy_per_degree_watts" 150
  if strContains label "Cool_SP" = true ∧ value < cget c "min_cool_setpoint" 20 then
    if (pyInt ((20 - value) * per_deg) : ℚ) > watts then (false, "energy_budget")
    else (true, "ok")
  else (true, "ok")

/-! ## Validator tables and shadow promotion -/

/-- cls.split("#")[-1] if "#" in cls else cls. -/
def localName (cls : String) : String :=
  if strContains cls "#" then (cls.splitOn "#").getLastD "" else cls

/-- Stable insertion of a (position, vtype) row into a position-sorted list. -/
def insertByPos (r : Int × String) : List (Int × String) → List (Int × String)
  | [] => [r]
  | x :: xs => if r.1 < x.1 then r :: x :: xs else x :: insertByPos r xs

/-- Stable sort of table rows by position (SELECT ... ORDER BY position ASC). -/
def sortByPos : List (Int × String) → List (Int × String)
  | [] => []
  | r :: rs => insertByPos r (sortByPos rs)

/-- SELECT MAX(position): none on the empty table. -/
def maxPos : List (Int × String) → Option Int
  | [] => none
  | r :: rs => some (match maxPos rs with | none => r.1 | some m => max r.1 m)

/-- Python's (x or -1) applied to the fetched MAX(position): NULL and the
falsy integer 0 both collapse to -1. -/
def pyOrNeg1 : Option Int → Int
  | none => -1
  | some m => if m = 0 then -1 else m

/-- get_validators_for_class: the ordered enforced chain of a class,
drawn from its table rows. -/
def get_validators_for_class (tbl : String → List (Int × String)) (cls : String) :
    List String :=
  (sortByPos (tbl (localName cls))).map (fun p => p.2)

/-- get_shadow_validators_for_class: the ordered shadow chain of a class. -/
def get_shadow_validators_for_class (tbl : String → List (Int × String)) (cls : String) :
    List String :=
  (sortByPos (tbl (localName cls))).map (fun p => p.2)

/-- admin_promote_shadow from the source: read the class's ordered shadow
validators (404, modelled as none, when there are none), compute
base = MAX(position) or -1, and insert the shadow entries at positions
base+1, base+2, ....  Returns the class's resulting enforced-validator
table rows. -/
def admin_promote_shadow (validators_tbl shadow_tbl : String → List (Int × String))
    (resource_class : String) : Option (List (Int × String)) :=
  let lcls := localName resource_class
  let sv := (sortByPos (shadow_tbl lcls)).map (fun p => p.2)
  if sv.isEmpty then none
  else
    let base := pyOrNeg1 (maxPos (validators_tbl lcls))
    some (validators_tbl lcls ++ sv.enum.map (fun p => (base + 1 + (p.1 : Int), p.2)))

/-! ## Rate limiter (fixed-window token bucket) -/

/-- A per-instance rate bucket: limit, tokens used, current minute window. -/
structure Bucket where
  limit : Nat
  tokens : Nat
  win : Nat
deriving DecidableEq

/-- The window-rollover step of token_bucket_ok: on a minute change the
token count resets to zero. -/
def bucket_roll (now_min : Nat) (b : Bucket) : Bucket :=
  if now_min ≠ b.win then ⟨b.limit, 0, now_min⟩ else b

/-- token_bucket_ok from the source: roll the window, then reject without
consuming when already at the limit, else consume one token. -/
def token_bucket_ok (now_min : Nat) (b : Bucket) : Bool × Bucket :=
  let b2 := bucket_roll now_min b
  if b2.tokens ≥ b2.limit then (false, b2)
  else (true, ⟨b2.limit, b2.tokens + 1, b2.win⟩)

/-- The outcomes of n successive write attempts against the rate gate
within one wall-clock minute, with the bucket threaded through. -/
def runAttempts (now_min : Nat) : Bucket → Nat → List Bool × Bucket
  | b, 0 => ([], b)
  | b, n + 1 =>
    let r := token_bucket_ok now_min b
    let rest := runAttempts now_min r.2 n
    (r.1 :: rest.1, rest.2)

/-! ## Validator chain execution -/

/-- The signature of a registered validator implementation:
(cls, label, value, previous value or none) to (accepted, reason). -/
def VFun : Type := String → String → ℚ → Option ℚ → Bool × String

/-- VALIDATOR_FUNS[v](cls, label, value, prev): none models the KeyError
raised on an unregistered validator type tag. -/
def evalV (vfuns : String → Option VFun) (v cls label : String) (value : ℚ)
    (prev : Option ℚ) : Option (Bool × String) :=
  (vfuns v).map (fun f => f cls label value prev)

/-- Result of running the enforced chain, carrying the list of validator
type tags that were actually evaluated, in evaluation order. -/
inductive EnfResult where
  | allOk (evaluated : List String)
  | rejected (evaluated : List String) (vname reason : String)
  | missing (evaluated : List String) (vname : String)
deriving DecidableEq

/-- The enforced-chain loop of the write endpoint: evaluate validators in
list order; the first rejection terminates evaluation with its reason;
an unregistered tag terminates with missing (an unhandled KeyError). -/
def runEnforced (vfuns : String → Option VFun) (cls label : String) (value : ℚ)
    (prev : Option ℚ) : List String → EnfResult
  | [] => EnfResult.allOk []
  | v :: rest =>
    match evalV vfuns v cls label value prev with
    | none => EnfResult.missing [] v
    | some (false, rr) => EnfResult.rejected [v] v rr
    | some (true, _) =>
      match runEnforced vfuns cls label value prev rest with
      | EnfResult.allOk tr => EnfResult.allOk (v :: tr)
      | EnfResult.rejected tr n rr => EnfResult.rejected (v :: tr) n rr
      | EnfResult.missing tr n => EnfResult.missing (v :: tr) n

/-- A shadow-log row (shadowlog table; the timestamp is elided). -/
structure ShadowRec where
  app_id : String
  user_id : String
  point_iri : String
  point_label : String
  value : ℚ
  cls : String
  vtype : String
  reason : String
deriving DecidableEq

/-- The shadow-log record produced by one shadow validator, if any: one
record exactly when the validator evaluates to a rejection. -/
def shadowRec (vfuns : String → Option VFun) (aid user iri label : String)
    (value : ℚ) (prev : Option ℚ) (cls : String) (v : String) : Option ShadowRec :=
  match evalV vfuns v cls label value prev with
  | some (false, r) => some ⟨aid, user, iri, label, value, cls, v, r⟩
  | _ => none

/-- The shadow-chain loop of the write endpoint: evaluate every shadow
validator in order, collecting one shadow-log record per rejection; the
Bool is false when an unregistered tag aborted the loop (KeyError), in
which case the records collected before the abort are kept. -/
def runShadow (vfuns : String → Option VFun) (aid user iri label : String)
    (value : ℚ) (prev : Option ℚ) (cls : String) :
    List String → List ShadowRec × Bool
  | [] => ([], true)
  | v :: rest =>
    match evalV vfuns v cls label value prev with
    | none => ([], false)
    | some (ok, r) =>
      let here : List ShadowRec :=
        if ok then [] else [⟨aid, user, iri, label, value, cls, v, r⟩]
      let rest2 := runShadow vfuns aid user iri label value prev cls rest
      (here ++ rest2.1, rest2.2)

/-! ## Write pipeline -/

/-- A transaction-log row (txlog table; the timestamp is elided). -/
structure TxRec where
  actor : String
  app_id : String
  user_id : String
  action : String
  point_iri : String
  point_label : String
  value : Option ℚ
  decision : String
  reason : String
deriving DecidableEq

/-- A live application instance as the write path sees it. -/
structure Instance where
  user : String
  caps_read : List String
  caps_write : List String
  bucket : Bucket
deriving DecidableEq

/-- The mutable system state touched by the write pipeline: the instance
registry, the key table, the resource-proxy value store, and the three
append-only logs. -/
structure SysState where
  apps : List (String × Instance)
  app_keys : List (String × String)
  state : List (String × ℚ)
  timeseries : List (String × ℚ)
  txlog : List TxRec
  shadowlog : List ShadowRec
deriving DecidableEq

/-- The read-only environment of a write: the point directory, the
resource-class lookup, the two validator tables, and the validator
registry. -/
structure WEnv where
  label2iri : String → Option String
  class_of : String → Option String
  validators_tbl : String → List (Int × String)
  shadow_tbl : String → List (Int × String)
  vfuns : String → Option VFun

/-- The WriteReq request body. -/
structure WriteReq where
  point_label : String
  value : ℚ
  prev_value : Option ℚ

/-- The terminal outcome of a write request (HTTP status equivalents:
401, 403, 429, 404, 403, 400, 500). -/
inductive Outcome where
  | ok
  | unauthenticated
  | forbiddenKey
  | rateLimited
  | unknownPoint
  | forbiddenCap
  | policyRejected (detail : String)
  | internalError
deriving DecidableEq

/-- proxy_read: the resource proxy's current stored value for a label. -/
def proxy_read (state : List (String × ℚ)) (label : String) : Option ℚ :=
  lookupA state label

/-- The write endpoint of the source, step by step: authenticate, rate
gate (the bucket mutation persists either way), resolve the point,
check the write capability, resolve the class, fail closed on an empty
enforced chain, run the enforced chain (short-circuiting, prev taken
from the resource proxy and never from req.prev_value), run every
shadow validator, commit through the proxy and log allow. -/
def write (env : WEnv) (x_app_key : Option String) (req : WriteReq) (now_min : Nat)
    (s : SysState) : Outcome × SysState :=
  match x_app_key with
  | none => (Outcome.unauthenticated, s)
  | some key =>
    match lookupA s.app_keys key with
    | none => (Outcome.forbiddenKey, s)
    | some aid =>
      match lookupA s.apps aid with
      | none => (Outcome.internalError, s)
      | some inst =>
        let rb := token_bucket_ok now_min inst.bucket
        let inst2 : Instance := { inst with bucket := rb.2 }
        let s1 : SysState := { s with apps := updateA s.apps aid inst2 }
        if rb.1 then
          match env.label2iri req.point_label with
          | none => (Outcome.unknownPoint, s1)
          | some iri =>
            if iri ∈ inst2.caps_write then
              let cls := (env.class_of iri).getD ""
              let vlist := get_validators_for_class env.validators_tbl cls
              if vlist = [] then
                (Outcome.policyRejected "No validators configured",
                 { s1 with txlog := s1.txlog ++
                     [⟨"regulator", aid, inst.user, "write", iri, req.point_label,
                       some req.value, "deny", "no-validators"⟩] })
              else
                let prev := proxy_read s1.state req.point_label
                match runEnforced env.vfuns cls req.point_label req.value prev vlist with
                | EnfResult.missing _ _ => (Outcome.internalError, s1)
                | EnfResult.rejected _ _ reason =>
                  (Outcome.policyRejected ("Guard blocked: " ++ reason),
                   { s1 with txlog := s1.txlog ++
                       [⟨"regulator", aid, inst.user, "write", iri, req.point_label,
                         some req.value, "deny", reason⟩] })
                | EnfResult.allOk _ =>
                  let sv := get_shadow_validators_for_class env.shadow_tbl cls
                  let sr := runShadow env.vfuns aid inst.user iri req.point_label
                    req.value prev cls sv
                  let s2 : SysState := { s1 with shadowlog := s1.shadowlog ++ sr.1 }
                  if sr.2 then
                    (Outcome.ok,
                     { s2 with
                        state := dictSet s2.state req.point_label req.value,
                        timeseries := s2.timeseries ++ [(req.point_label, req.value)],
                        txlog := s2.txlog ++
                          [⟨"proxy", aid, inst.user, "write", iri, req.point_label,
                            some req.value, "allow", "ok"⟩] })
                  else (Outcome.internalError, s2)
            else
              (Outcome.forbiddenCap,
               { s1 with txlog := s1.txlog ++
                   [⟨"app", aid, inst.user, "write", iri, req.point_label,
                     some req.value, "deny", "no-cap-write"⟩] })
        else (Outcome.rateLimited, s1)

/-! ## Concrete evaluation fixtures -/

/-- A capability environment whose profile query resolves to one point
and whose user store holds no queries at all. -/
def c1Env : CapEnv where
  query_iris := fun _ => ["p1"]
  render_profile := fun _ _ => "Q"
  users_query := fun _ _ => none

/-- A manifest using the delegation-mode spelling of the specification. -/
def c1Man : Manifest where
  app_id := "a"
  profile := "pf"
  args := []
  delegation := "augmented"
  write_rate_limit_per_min := 60
  permissions := [("write", true)]
  user := "u"

/-- The same manifest with the delegation literal the code compares to. -/
def c1aMan : Manifest := { c1Man with delegation := "augmentation" }

/-- Constraints configuring a cooling minimum different from 20. -/
def c2c : List (String × ℚ) :=
  [("min_cool_setpoint", 30), ("energy_budget_watts", 100),
   ("energy_per_degree_watts", 150)]

/-- An enforced-validator table with exactly one entry at position 0. -/
def c3Validators : String → List (Int × String) := fun c =>
  if c == "Cooling_Setpoint" then [(0, "range")] else []

/-- A shadow-validator table with one entry for the same class. -/
def c3Shadow : String → List (Int × String) := fun c =>
  if c == "Cooling_Setpoint" then [(0, "comfort_band")] else []

/-- A capability environment with a profile query and per-user stored
read and write queries whose results overlap the app set. -/
def c8Env : CapEnv where
  query_iris := fun q =>
    if q == "QA" then ["p1", "p2"]
    else if q == "QUR" then ["p1", "p2", "p3"]
    else if q == "QUW" then ["p2", "p3"]
    else []
  render_profile := fun _ _ => "QA"
  users_query := fun u k =>
    if u == "bob" && k == "sparql_read" then some "QUR"
    else if u == "bob" && k == "sparql_write" then some "QUW"
    else none

/-- A delegated-mode manifest for user bob. -/
def c8Man : Manifest where
  app_id := "a"
  profile := "pf"
  args := []
  delegation := "delegated"
  write_rate_limit_per_min := 60
  permissions := [("write", true)]
  user := "bob"

/-- A validator that always accepts. -/
def vfOk : VFun := fun _ _ _ _ => (true, "ok")

/-- A validator that accepts values below 10 and rejects the rest. -/
def vfLow : VFun := fun _ _ value _ =>
  if value < 10 then (true, "ok") else (false, "too-high")

/-- A validator that always rejects. -/
def vfNever : VFun := fun _ _ _ _ => (false, "never")

/-- A write environment with three points: L1 in class CA (chain of
three enforced validators), L2 in class CB (empty enforced chain), L3 in
class CC (one enforced validator, two shadow validators). -/
def wEnv : WEnv where
  label2iri := fun l =>
    if l == "L1" then some "I1"
    else if l == "L2" then some "I2"
    else if l == "L3" then some "I3"
    else none
  class_of := fun i =>
    if i == "I1" then some "CA"
    else if i == "I2" then some "CB"
    else if i == "I3" then some "CC"
    else none
  validators_tbl := fun c =>
    if c == "CA" then [(0, "vOk"), (1, "vLow"), (2, "vNever")]
    else if c == "CC" then [(0, "vOk")]
    else []
  shadow_tbl := fun c =>
    if c == "CC" then [(0, "vNever"), (1, "vLow")] else []
  vfuns := fun v =>
    if v == "vOk" then some vfOk
    else if v == "vLow" then some vfLow
    else if v == "vNever" then some vfNever
    else none

/-- A registered instance holding write capability on all three points. -/
def inst0 : Instance where
  user := "alice"
  caps_read := ["I1", "I2", "I3"]
  caps_write := ["I1", "I2", "I3"]
  bucket := ⟨10, 0, 0⟩

/-- An initial system state with one registered instance and stored
values for the three points. -/
def st0 : SysState where
  apps := [("app1", inst0)]
  app_keys := [("k1", "app1")]
  state := [("L1", 22), ("L2", 22), ("L3", 22)]
  timeseries := []
  txlog := []
  shadowlog := []

/-! ## Theorems -/

/-- Claim C1 (counterexample): for a manifest whose delegation mode is
the string "augmented", compute_caps does NOT return the app's
profile-derived set — the code compares against "augmentation", so the
"augmented" spelling falls through to the user-intersection path and,
with a user holding no stored queries, both resulting sets are empty
even though the profile query resolves to ["p1"] and the write flag is
set. -/
theorem c1_counterexample :
    c1Man.delegation = "augmented"
  ∧ (lookupA c1Man.permissions "write").getD false = true
  ∧ c1Env.query_iris (c1Env.render_profile c1Man.profile c1Man.args) = ["p1"]
  ∧ compute_caps c1Env c1Man = ⟨[], []⟩
  ∧ compute_caps c1Env c1Man ≠ ⟨["p1"], ["p1"]⟩ := by
  refine ⟨rfl, rfl, rfl, ?_, ?_⟩ <;> decide

/-- Claim C1 (amended): for every manifest whose delegation mode is the
string "augmentation", compute_caps returns exactly the app's
profile-derived capability set — read set is the profile query result,
write set is that same set when the write permission flag is true and
empty otherwise — with no reference to the user's capability sets. -/
theorem c1_augmentation_caps (env : CapEnv) (man : Manifest)
    (h : man.delegation = "augmentation") :
    compute_caps env man =
      ⟨env.query_iris (env.render_profile man.profile man.args),
       if (lookupA man.permissions "write").getD false
       then env.query_iris (env.render_profile man.profile man.args) else []⟩ := by
  simp [compute_caps, h]

/-- Witness for c1_augmentation_caps at a concrete environment. -/
theorem c1_augmentation_caps_witness :
    compute_caps c1Env c1aMan =
      ⟨c1Env.query_iris (c1Env.render_profile c1aMan.profile c1aMan.args),
       if (lookupA c1aMan.permissions "write").getD false
       then c1Env.query_iris (c1Env.render_profile c1aMan.profile c1aMan.args)
       else []⟩ :=
  c1_augmentation_caps c1Env c1aMan rfl

/-- Claim C2 (counterexample): with min_cool_setpoint configured to 30,
per-degree watts 150 and budget 100, a cooling-setpoint write of value
25 satisfies the claim's rejection condition — (min − value) ×
per_degree_watts = 750 exceeds the budget 100 — yet v_energy_budget
accepts, because the code computes the estimate from the hard constant
20.0 rather than the configured minimum. -/
theorem c2_counterexample :
    strContains "F1_ZoneA_Cool_SP" "Cool_SP" = true
  ∧ (25 : ℚ) < cget c2c "min_cool_setpoint" 20
  ∧ (cget c2c "min_cool_setpoint" 20 - 25) * cget c2c "energy_per_degree_watts" 150
      > cget c2c "energy_budget_watts" 5000
  ∧ v_energy_budget c2c "Cooling_Setpoint" "F1_ZoneA_Cool_SP" 25 none = (true, "ok") := by
  have hc : strContains "F1_ZoneA_Cool_SP" "Cool_SP" = true := by decide
  have e1 : cget c2c "min_cool_setpoint" 20 = 30 := rfl
  have e2 : cget c2c "energy_per_degree_watts" 150 = 150 := rfl
  have e3 : cget c2c "energy_budget_watts" 5000 = 100 := rfl
  refine ⟨hc, ?_, ?_, ?_⟩
  · rw [e1]; norm_num
  · rw [e1, e2, e3]; norm_num
  · simp only [v_energy_budget, e1, e2, e3, hc]
    norm_num [pyInt]
    rw [show ((-750 : ℚ)) = ((-750 : ℤ) : ℚ) by norm_num, Int.ceil_intCast]
    norm_num

/-- Claim C2 (amended): for every cooling-setpoint write whose value is
below the configured minimum, v_energy_budget estimates the additional
wattage as int((20.0 − value) × per_degree_watts) — from the fixed
baseline 20.0, the configured minimum only gating whether the check
applies — and rejects exactly when that truncated estimate exceeds the
configured total budget. -/
theorem c2_energy_budget_amended (c : List (String × ℚ)) (cls label : String)
    (value : ℚ) (prev : Option ℚ)
    (h1 : strContains label "Cool_SP" = true)
    (h2 : value < cget c "min_cool_setpoint" 20) :
    v_energy_budget c cls label value prev =
      (if (pyInt ((20 - value) * cget c "energy_per_degree_watts" 150) : ℚ)
          > cget c "energy_budget_watts" 5000
       then (false, "energy_budget") else (true, "ok")) := by
  simp [v_energy_budget, h1, h2]

/-- Witness for c2_energy_budget_amended: an in-range value of 10 under
the default constraints. -/
theorem c2_energy_budget_amended_witness :
    v_energy_budget [] "Cooling_Setpoint" "F1_ZoneA_Cool_SP" 10 none =
      (if (pyInt ((20 - 10) * cget [] "energy_per_degree_watts" 150) : ℚ)
          > cget [] "energy_budget_watts" 5000
       then (false, "energy_budget") else (true, "ok")) :=
  c2_energy_budget_amended [] "Cooling_Setpoint" "F1_ZoneA_Cool_SP" 10 none rfl
    (by decide)

/-- Claim C3 (code evaluated at the failing input): an enforced chain
with exactly one entry at position 0 has MAX(position) = 0; the Python
expression (fetched or -1) treats the integer 0 as falsy, so the
promotion base becomes -1 and the promoted shadow validator is inserted
at position 0, colliding with the existing enforced entry instead of
being appended after it. -/
theorem c3_promote_position_collision :
    maxPos (c3Validators "Cooling_Setpoint") = some 0
  ∧ pyOrNeg1 (maxPos (c3Validators "Cooling_Setpoint")) = -1
  ∧ admin_promote_shadow c3Validators c3Shadow "Cooling_Setpoint" =
      some [(0, "range"), (0, "comfort_band")] := by
  refine ⟨?_, ?_, ?_⟩ <;> decide

/-- A same-window rate-gate call below the limit consumes one token. -/
theorem token_bucket_ok_pass (w L t : Nat) (h : t < L) :
    token_bucket_ok w ⟨L, t, w⟩ = (true, ⟨L, t + 1, w⟩) := by
  have hnl : ¬ (t ≥ L) := by omega
  simp [token_bucket_ok, bucket_roll, hnl]

/-- A same-window rate-gate call at or above the limit rejects without
consuming a token. -/
theorem token_bucket_ok_at_limit (w L t : Nat) (h : L ≤ t) :
    token_bucket_ok w ⟨L, t, w⟩ = (false, ⟨L, t, w⟩) := by
  have hl : t ≥ L := h
  simp [token_bucket_ok, bucket_roll, hl]

/-- While the limit is not exhausted, every attempt in the window passes
and tokens accumulate one per attempt. -/
theorem runAttempts_pass (w L : Nat) :
    ∀ (n t : Nat), t + n ≤ L →
      runAttempts w ⟨L, t, w⟩ n = (List.replicate n true, ⟨L, t + n, w⟩) := by
  intro n
  induction n with
  | zero => intro t h; simp [runAttempts]
  | succ n ih =>
    intro t h
    have ht : t < L := by omega
    have hrec := ih (t + 1) (by omega)
    simp [runAttempts, token_bucket_ok_pass w L t ht, hrec, List.replicate_succ] <;>
      omega

/-- Attempt sequences compose. -/
theorem runAttempts_add (w : Nat) :
    ∀ (m n : Nat) (b : Bucket),
      runAttempts w b (m + n) =
        ((runAttempts w b m).1 ++ (runAttempts w (runAttempts w b m).2 n).1,
         (runAttempts w (runAttempts w b m).2 n).2) := by
  intro m
  induction m with
  | zero => intro n b; simp [runAttempts]
  | succ m ih =>
    intro n b
    have hc : m + 1 + n = (m + n) + 1 := by omega
    rw [hc]
    simp [runAttempts, ih]

/-- From a fresh window, the first L attempts pass and the next one is
rejected with the token count left at L. -/
theorem runAttempts_limit (w L : Nat) :
    runAttempts w ⟨L, 0, w⟩ (L + 1) =
      (List.replicate L true ++ [false], ⟨L, L, w⟩) := by
  have h1 := runAttempts_pass w L L 0 (by omega)
  have h2 : token_bucket_ok w ⟨L, L, w⟩ = (false, ⟨L, L, w⟩) :=
    token_bucket_ok_at_limit w L L (le_refl L)
  rw [runAttempts_add w L 1]
  simp only [Nat.zero_add] at h1
  simp [h1, runAttempts, h2]

/-- Claim C4: for a limit of N per minute and a fresh window, the first
N write attempts pass the rate gate, each consuming one token, and the
(N+1)-th attempt is rejected without consuming a token (the final token
count is N, not N+1); the gate consults nothing but the bucket, so the
outcomes are independent of downstream validation; and on a wall-clock
minute change the token count resets to zero. -/
theorem c4_rate_gate (N w : Nat) (b : Bucket)
    (hL : b.limit = N) (h0 : b.tokens = 0) (hw : b.win = w) :
    runAttempts w b (N + 1) = (List.replicate N true ++ [false], ⟨N, N, w⟩)
  ∧ (∀ (w2 : Nat) (b2 : Bucket), w2 ≠ b2.win →
      bucket_roll w2 b2 = ⟨b2.limit, 0, w2⟩) := by
  constructor
  · have hb : b = ⟨N, 0, w⟩ := by cases b; simp_all
    rw [hb]
    exact runAttempts_limit w N
  · intro w2 b2 h
    simp [bucket_roll, h]

/-- Witness for c4_rate_gate at limit 2: three attempts in one window. -/
theorem c4_rate_gate_witness :
    runAttempts 0 ⟨2, 0, 0⟩ 3 = (List.replicate 2 true ++ [false], ⟨2, 2, 0⟩)
  ∧ (∀ (w2 : Nat) (b2 : Bucket), w2 ≠ b2.win →
      bucket_roll w2 b2 = ⟨b2.limit, 0, w2⟩) :=
  c4_rate_gate 2 0 ⟨2, 0, 0⟩ rfl rfl rfl

/-- Claim C8: for every manifest whose delegation mode is "delegated",
every identifier in the computed write set lies both in the app's own
write-eligible set (the profile result under the write flag) and in the
user's resolved write set, and the computed read set is exactly the
intersection of the app's profile result with the user's read set. -/
theorem c8_delegated_intersection (env : CapEnv) (man : Manifest)
    (h : man.delegation = "delegated") :
    (∀ x ∈ (compute_caps env man).write,
        x ∈ (if (lookupA man.permissions "write").getD false
             then env.query_iris (env.render_profile man.profile man.args) else [])
      ∧ x ∈ user_caps env man.user "write")
  ∧ (∀ x, x ∈ (compute_caps env man).read ↔
        (x ∈ env.query_iris (env.render_profile man.profile man.args)
         ∧ x ∈ user_caps env man.user "read")) := by
  have hne : ¬ (man.delegation = "augmentation") := by rw [h]; decide
  constructor
  · intro x hx
    have hx2 : x ∈ (if (lookupA man.permissions "write").getD false
          then env.query_iris (env.render_profile man.profile man.args)
          else []).filter
            (fun i => decide (i ∈ user_caps env man.user "write")) := by
      simpa [compute_caps, hne] using hx
    rcases List.mem_filter.mp hx2 with ⟨ha, hb⟩
    exact ⟨ha, of_decide_eq_true hb⟩
  · intro x
    constructor
    · intro hx
      have hx2 : x ∈ (env.query_iris (env.render_profile man.profile man.args)).filter
          (fun i => decide (i ∈ user_caps env man.user "read")) := by
        simpa [compute_caps, hne] using hx
      rcases List.mem_filter.mp hx2 with ⟨ha, hb⟩
      exact ⟨ha, of_decide_eq_true hb⟩
    · intro hx
      have hx2 : x ∈ (env.query_iris (env.render_profile man.profile man.args)).filter
          (fun i => decide (i ∈ user_caps env man.user "read")) :=
        List.mem_filter.mpr ⟨hx.1, decide_eq_true hx.2⟩
      simpa [compute_caps, hne] using hx2

/-- Witness for c8_delegated_intersection at a concrete delegated
manifest whose app and user sets overlap partially. -/
theorem c8_delegated_intersection_witness :
    (∀ x ∈ (compute_caps c8Env c8Man).write,
        x ∈ (if (lookupA c8Man.permissions "write").getD false
             then c8Env.query_iris (c8Env.render_profile c8Man.profile c8Man.args)
             else [])
      ∧ x ∈ user_caps c8Env c8Man.user "write")
  ∧ (∀ x, x ∈ (compute_caps c8Env c8Man).read ↔
        (x ∈ c8Env.query_iris (c8Env.render_profile c8Man.profile c8Man.args)
         ∧ x ∈ user_caps c8Env c8Man.user "read")) :=
  c8_delegated_intersection c8Env c8Man rfl

/-- Claim C5: a write that reaches enforced validation with a class
whose enforced chain is empty is denied with detail "No validators
configured", and exactly one deny transaction record with actor
"regulator" and reason "no-validators" is appended — for every requested
value, with the proxy state and time series untouched. -/
theorem c5_empty_chain_fail_closed (env : WEnv) (key aid : String) (inst : Instance)
    (req : WriteReq) (now : Nat) (s : SysState) (iri cls : String) (b2 : Bucket)
    (hk : lookupA s.app_keys key = some aid)
    (ha : lookupA s.apps aid = some inst)
    (hrate : token_bucket_ok now inst.bucket = (true, b2))
    (hiri : env.label2iri req.point_label = some iri)
    (hcap : iri ∈ inst.caps_write)
    (hcls : (env.class_of iri).getD "" = cls)
    (hval : get_validators_for_class env.validators_tbl cls = []) :
    write env (some key) req now s =
      (Outcome.policyRejected "No validators configured",
       { s with
          apps := updateA s.apps aid { inst with bucket := b2 },
          txlog := s.txlog ++
            [⟨"regulator", aid, inst.user, "write", iri, req.point_label,
              some req.value, "deny", "no-validators"⟩] }) := by
  simp [write, hk, ha, hrate, hiri, hcap, hcls, hval]

/-- Witness for c5_empty_chain_fail_closed: point L2's class CB has an
empty enforced chain. -/
theorem c5_empty_chain_fail_closed_witness :
    write wEnv (some "k1") ⟨"L2", 30, none⟩ 0 st0 =
      (Outcome.policyRejected "No validators configured",
       { st0 with
          apps := updateA st0.apps "app1" { inst0 with bucket := ⟨10, 1, 0⟩ },
          txlog := st0.txlog ++
            [⟨"regulator", "app1", inst0.user, "write", "I2", "L2",
              some 30, "deny", "no-validators"⟩] }) :=
  c5_empty_chain_fail_closed wEnv "k1" "app1" inst0 ⟨"L2", 30, none⟩ 0 st0 "I2" "CB"
    ⟨10, 1, 0⟩ rfl rfl rfl rfl (by decide) rfl rfl

/-- The enforced chain short-circuits: if every validator of the chain
prefix accepts and validator v rejects with reason r, the chain stops at
v with reason r and the suffix is never evaluated — the evaluated trace
is exactly the prefix followed by v. -/
theorem runEnforced_short_circuit (vfuns : String → Option VFun) (cls label : String)
    (value : ℚ) (prev : Option ℚ) (v r : String) :
    ∀ (pre post : List String),
      (∀ u ∈ pre, ∃ rr, evalV vfuns u cls label value prev = some (true, rr)) →
      evalV vfuns v cls label value prev = some (false, r) →
      runEnforced vfuns cls label value prev (pre ++ v :: post) =
        EnfResult.rejected (pre ++ [v]) v r := by
  intro pre
  induction pre with
  | nil => intro post hpre hv; simp [runEnforced, hv]
  | cons u us ih =>
    intro post hpre hv
    obtain ⟨rr, hu⟩ := hpre u (by simp)
    have hrest := ih post (fun x hx => hpre x (by simp [hx])) hv
    simp [runEnforced, hu, hrest]

/-- Claim C6: the enforced chain runs in configured order and
short-circuits — with every validator before v accepting and v
rejecting with reason r, the validators after v are never evaluated
(the evaluated trace is pre ++ [v]), and r is both the reason of the
deny record logged with actor "regulator" and part of the detail
returned to the caller. -/
theorem c6_enforced_short_circuit (env : WEnv) (key aid : String) (inst : Instance)
    (req : WriteReq) (now : Nat) (s : SysState) (iri cls v r : String) (b2 : Bucket)
    (pre post : List String)
    (hk : lookupA s.app_keys key = some aid)
    (ha : lookupA s.apps aid = some inst)
    (hrate : token_bucket_ok now inst.bucket = (true, b2))
    (hiri : env.label2iri req.point_label = some iri)
    (hcap : iri ∈ inst.caps_write)
    (hcls : (env.class_of iri).getD "" = cls)
    (hval : get_validators_for_class env.validators_tbl cls = pre ++ v :: post)
    (hpre : ∀ u ∈ pre, ∃ rr,
        evalV env.vfuns u cls req.point_label req.value
          (proxy_read s.state req.point_label) = some (true, rr))
    (hv : evalV env.vfuns v cls req.point_label req.value
        (proxy_read s.state req.point_label) = some (false, r)) :
    runEnforced env.vfuns cls req.point_label req.value
        (proxy_read s.state req.point_label) (pre ++ v :: post) =
      EnfResult.rejected (pre ++ [v]) v r
  ∧ write env (some key) req now s =
      (Outcome.policyRejected ("Guard blocked: " ++ r),
       { s with
          apps := updateA s.apps aid { inst with bucket := b2 },
          txlog := s.txlog ++
            [⟨"regulator", aid, inst.user, "write", iri, req.point_label,
              some req.value, "deny", r⟩] }) := by
  have hsc := runEnforced_short_circuit env.vfuns cls req.point_label req.value
    (proxy_read s.state req.point_label) v r pre post hpre hv
  refine ⟨hsc, ?_⟩
  have hne : ¬ (pre ++ v :: post = []) := by simp
  simp [write, hk, ha, hrate, hiri, hcap, hcls, hval, hne, hsc]

/-- Witness for c6_enforced_short_circuit: chain [vOk, vLow, vNever] at
value 20 — vOk accepts, vLow rejects with "too-high", vNever (which
would reject with a different reason) is never evaluated. -/
theorem c6_enforced_short_circuit_witness :
    runEnforced wEnv.vfuns "CA" "L1" 20 (proxy_read st0.state "L1")
        (["vOk"] ++ "vLow" :: ["vNever"]) =
      EnfResult.rejected (["vOk"] ++ ["vLow"]) "vLow" "too-high"
  ∧ write wEnv (some "k1") ⟨"L1", 20, none⟩ 0 st0 =
      (Outcome.policyRejected ("Guard blocked: " ++ "too-high"),
       { st0 with
          apps := updateA st0.apps "app1" { inst0 with bucket := ⟨10, 1, 0⟩ },
          txlog := st0.txlog ++
            [⟨"regulator", "app1", inst0.user, "write", "I1", "L1",
              some 20, "deny", "too-high"⟩] }) :=
  c6_enforced_short_circuit wEnv "k1" "app1" inst0 ⟨"L1", 20, none⟩ 0 st0 "I1" "CA"
    "vLow" "too-high" ⟨10, 1, 0⟩ ["vOk"] ["vNever"] rfl rfl rfl rfl (by decide) rfl rfl
    (by
      intro u hu
      simp only [List.mem_singleton] at hu
      subst hu
      exact ⟨"ok", rfl⟩)
    (by
      have h1 : evalV wEnv.vfuns "vLow" "CA" "L1" 20 (proxy_read st0.state "L1")
          = some (vfLow "CA" "L1" 20 (some 22)) := rfl
      rw [h1]
      norm_num [vfLow])

/-- When every shadow validator of a chain is registered, the shadow
loop runs them all and collects exactly one record per rejecting
evaluation, in chain order, regardless of earlier shadow failures. -/
theorem runShadow_total (vfuns : String → Option VFun) (aid user iri label : String)
    (value : ℚ) (prev : Option ℚ) (cls : String) :
    ∀ (l : List String), (∀ u ∈ l, (vfuns u).isSome = true) →
      runShadow vfuns aid user iri label value prev cls l =
        (l.filterMap (shadowRec vfuns aid user iri label value prev cls), true) := by
  intro l
  induction l with
  | nil => intro h; simp [runShadow]
  | cons u us ih =>
    intro h
    have hu : (vfuns u).isSome = true := h u (by simp)
    obtain ⟨f, hf⟩ := Option.isSome_iff_exists.mp hu
    have hrest := ih (fun x hx => h x (by simp [hx]))
    rcases hres : f cls label value prev with ⟨ok, rr⟩
    cases ok
    · simp [runShadow, evalV, hf, hres, hrest, shadowRec]
    · simp [runShadow, evalV, hf, hres, hrest, shadowRec]

/-- Claim C7: once the enforced chain passes, every configured shadow
validator is evaluated (none skipped), each rejecting evaluation
appends exactly one shadow-log record (the filterMap over the whole
chain), and no shadow outcome blocks the commit or the allow record:
the write commits to the proxy, appends a time-series sample, and is
logged allow with actor "proxy". -/
theorem c7_shadow_nonblocking (env : WEnv) (key aid : String) (inst : Instance)
    (req : WriteReq) (now : Nat) (s : SysState) (iri cls : String) (b2 : Bucket)
    (vlist tr : List String)
    (hk : lookupA s.app_keys key = some aid)
    (ha : lookupA s.apps aid = some inst)
    (hrate : token_bucket_ok now inst.bucket = (true, b2))
    (hiri : env.label2iri req.point_label = some iri)
    (hcap : iri ∈ inst.caps_write)
    (hcls : (env.class_of iri).getD "" = cls)
    (hval : get_validators_for_class env.validators_tbl cls = vlist)
    (hne : vlist ≠ [])
    (henf : runEnforced env.vfuns cls req.point_label req.value
        (proxy_read s.state req.point_label) vlist = EnfResult.allOk tr)
    (hall : ∀ u ∈ get_shadow_validators_for_class env.shadow_tbl cls,
        (env.vfuns u).isSome = true) :
    write env (some key) req now s =
      (Outcome.ok,
       { s with
          apps := updateA s.apps aid { inst with bucket := b2 },
          state := dictSet s.state req.point_label req.value,
          timeseries := s.timeseries ++ [(req.point_label, req.value)],
          txlog := s.txlog ++
            [⟨"proxy", aid, inst.user, "write", iri, req.point_label,
              some req.value, "allow", "ok"⟩],
          shadowlog := s.shadowlog ++
            (get_shadow_validators_for_class env.shadow_tbl cls).filterMap
              (shadowRec env.vfuns aid inst.user iri req.point_label req.value
                (proxy_read s.state req.point_label) cls) }) := by
  have hsh := runShadow_total env.vfuns aid inst.user iri req.point_label req.value
    (proxy_read s.state req.point_label) cls
    (get_shadow_validators_for_class env.shadow_tbl cls) hall
  simp [write, hk, ha, hrate, hiri, hcap, hcls, hval, hne, henf, hsh]

/-- Witness for c7_shadow_nonblocking: point L3's shadow chain is
[vNever, vLow]; vNever always rejects yet the write at value 5 commits
and is logged allow, with vNever's one shadow record collected. -/
theorem c7_shadow_nonblocking_witness :
    write wEnv (some "k1") ⟨"L3", 5, none⟩ 0 st0 =
      (Outcome.ok,
       { st0 with
          apps := updateA st0.apps "app1" { inst0 with bucket := ⟨10, 1, 0⟩ },
          state := dictSet st0.state "L3" 5,
          timeseries := st0.timeseries ++ [("L3", 5)],
          txlog := st0.txlog ++
            [⟨"proxy", "app1", inst0.user, "write", "I3", "L3",
              some 5, "allow", "ok"⟩],
          shadowlog := st0.shadowlog ++
            (get_shadow_validators_for_class wEnv.shadow_tbl "CC").filterMap
              (shadowRec wEnv.vfuns "app1" inst0.user "I3" "L3" 5
                (proxy_read st0.state "L3") "CC") }) :=
  c7_shadow_nonblocking wEnv "k1" "app1" inst0 ⟨"L3", 5, none⟩ 0 st0 "I3" "CC"
    ⟨10, 1, 0⟩ ["vOk"] ["vOk"] rfl rfl rfl rfl (by decide) rfl rfl (by decide) rfl
    (by decide)

/-- Claim C9: the write pipeline is atomic with respect to the resource
proxy — whenever the outcome is anything other than ok (rate limiting,
authentication, unknown point, missing capability, policy rejection, or
an internal error), the proxy's stored values and the time series are
exactly as before the request; only the success path mutates them. -/
theorem c9_failure_atomic (env : WEnv) (key : Option String) (req : WriteReq)
    (now : Nat) (s : SysState) :
    (write env key req now s).1 = Outcome.ok ∨
    ((write env key req now s).2.state = s.state ∧
     (write env key req now s).2.timeseries = s.timeseries) := by
  simp only [write]
  repeat' split
  all_goals simp

/-- Claim C10: the caller-supplied prev_value field of a write request
has no effect — two requests identical except in prev_value produce the
same outcome and the same final system state, because the previous
value handed to every validator is the proxy's stored value. -/
theorem c10_prev_value_no_effect (env : WEnv) (key : Option String) (now : Nat)
    (s : SysState) (label : String) (value : ℚ) (p1 p2 : Option ℚ) :
    write env key ⟨label, value, p1⟩ now s = write env key ⟨label, value, p2⟩ now s := rfl
